import Mathlib

/-!
Verification of the tracker protocol of the automated-datastore-discovery
sample (AWS Glue based).  The definitions below are a shallow embedding of
the Python Lambda handlers under `src/lambda/`:

* `glue-tracking-initial/app.py`      — queue consumer inserting tracker items
* `rds-glue-tracking-initial/app.py`  — catalog-event consumer inserting items
* `dynamodb-trigger/app.py`           — key-value discovery producer
* `s3-trigger/app.py`                 — object-store discovery producer
* `catalog-creator-s3/app.py`         — catalog-stage advancement handler
* `s3-glue-job-creator/app.py`        — job-stage advancement handler

The Tracker Store (a DynamoDB table) is modelled as a list of items; an
item is a record of the attributes the handlers read and write, each
attribute optional (a DynamoDB item need not carry every attribute).
-/

namespace DatastoreDiscovery

/-- Python truthiness of an optional string: `None` and `""` are falsy
(`if not x` in the source treats both as missing). -/
def truthyStr : Option String → Option String
  | none => none
  | some s => if s = "" then none else some s

/-- The provider-native `data_source_attrs` payload.  The source only ever
reads top-level string attributes (`bucketName`, `Host`) and one nested
object attribute (`CreateBucketConfiguration.LocationConstraint`), so the
payload is embedded as a two-level string map. -/
structure SourceAttrs where
  fields : List (String × String) := []
  nested : List (String × List (String × String)) := []
deriving DecidableEq, Repr, Inhabited

/-- One item of the Glue tracker DynamoDB table.  Attributes absent from an
item are `none`; `glue-tracking-initial/app.py` writes `data_catalog_entry`
and `glue_job_created` as booleans, the stage-advancement handlers write
them with `{"BOOL": True}` update values. -/
structure TrackerItem where
  id : String
  data_source_type : Option String := none
  glue_job_created : Option Bool := none
  data_catalog_entry : Option Bool := none
  data_catalog_table_name : Option String := none
  data_catalog_db_name : Option String := none
  data_source_attrs : Option SourceAttrs := none
deriving DecidableEq, Repr, Inhabited

/-- The Tracker Store: the items of the DynamoDB table, in storage order. -/
def TrackerStore := List TrackerItem
deriving DecidableEq, Inhabited

/-- `put_item` with `ConditionExpression="attribute_not_exists(id)"`
(both insert handlers).  `fault` injects a provider-side `ClientError`
code (transient failure); DynamoDB itself reports
`ConditionalCheckFailedException` when an item with the same `id`
already exists.  Returns the store after the call and the error code
the call raised, if any. -/
def trackerPutItem (store : List TrackerItem) (item : TrackerItem)
    (fault : Option String) : List TrackerItem × Option String :=
  match fault with
  | some code => (store, some code)
  | none =>
    if store.any (fun r => r.id = item.id) then
      (store, some "ConditionalCheckFailedException")
    else
      (store ++ [item], none)

/-- Outcome of one handler invocation: returned normally, or raised. -/
inductive HandlerResult where
  | ok
  | raised
deriving DecidableEq, Repr

/-- Message body placed on the Glue tracking queue
(`{"data_source_type": ..., "data_source_attrs": ...}`,
built by `s3-trigger/app.py` and `dynamodb-trigger/app.py`). -/
structure QueueMessage where
  data_source_type : String
  data_source_attrs : SourceAttrs
deriving DecidableEq, Repr, Inhabited

/-- The `python_obj` built by `glue-tracking-initial/app.py` (lines
213–219): a fresh uuid as `id`, the body's source type and attributes,
both stage booleans `False`. -/
def glueTrackingItem (uid : String) (body : QueueMessage) : TrackerItem :=
  { id := uid
    data_source_type := some body.data_source_type
    glue_job_created := some false
    data_catalog_entry := some false
    data_source_attrs := some body.data_source_attrs }

/-- The `python_obj` built by `rds-glue-tracking-initial/app.py` (lines
140–148): source type hard-coded `"rds"`, catalog names from the observed
`CreateTable` event, `data_catalog_entry` pre-set `True`. -/
def rdsTrackingItem (uid tableName dbName : String) (attrs : SourceAttrs) :
    TrackerItem :=
  { id := uid
    data_source_type := some "rds"
    data_catalog_table_name := some tableName
    data_catalog_db_name := some dbName
    glue_job_created := some false
    data_catalog_entry := some true
    data_source_attrs := some attrs }

/-- The conditional-insert step of `glue-tracking-initial/app.py` (lines
221–235): `ConditionalCheckFailedException` is logged and swallowed,
any other `ClientError` code re-raises. -/
def glueTrackingInsert (store : List TrackerItem) (body : QueueMessage)
    (uid : String) (fault : Option String) :
    List TrackerItem × HandlerResult :=
  let (store2, err) := trackerPutItem store (glueTrackingItem uid body) fault
  match err with
  | none => (store2, .ok)
  | some code =>
    if code = "ConditionalCheckFailedException" then (store2, .ok)
    else (store2, .raised)

/-- The conditional-insert step of `rds-glue-tracking-initial/app.py`
(lines 151–165), same exception policy as the queue consumer. -/
def rdsTrackingInsert (store : List TrackerItem)
    (uid tableName dbName : String) (attrs : SourceAttrs)
    (fault : Option String) : List TrackerItem × HandlerResult :=
  let (store2, err) :=
    trackerPutItem store (rdsTrackingItem uid tableName dbName attrs) fault
  match err with
  | none => (store2, .ok)
  | some code =>
    if code = "ConditionalCheckFailedException" then (store2, .ok)
    else (store2, .raised)

/-- Scan predicate of `catalog-creator-s3/app.py` (line 10):
`glue_job_created = False AND data_catalog_entry = False AND
data_source_type = 's3'`.  A PartiQL equality on a missing attribute does
not match. -/
def catalogCreatorPred (r : TrackerItem) : Bool :=
  r.glue_job_created == some false
    && r.data_catalog_entry == some false
    && r.data_source_type == some "s3"

/-- Scan predicate of `s3-glue-job-creator/app.py` (line 21):
`glue_job_created = False AND data_catalog_entry = True AND
data_source_type = 's3'`. -/
def s3JobCreatorPred (r : TrackerItem) : Bool :=
  r.glue_job_created == some false
    && r.data_catalog_entry == some true
    && r.data_source_type == some "s3"

/-- PartiQL `SELECT * FROM table WHERE pred`: the matching items. -/
def scanStore (store : List TrackerItem) (pred : TrackerItem → Bool) :
    List TrackerItem :=
  store.filter pred

/-- The `SET` clause of `update_ddb` in `catalog-creator-s3/app.py`
(lines 128–142): assigns `data_catalog_entry := True` and the two
catalog name attributes. -/
def catalogUpdateSet (dcTableName dcDbName : String) (r : TrackerItem) :
    TrackerItem :=
  { r with
    data_catalog_entry := some true
    data_catalog_table_name := some dcTableName
    data_catalog_db_name := some dcDbName }

/-- The `SET` clause of `update_ddb` in `s3-glue-job-creator/app.py`
(lines 153–163): assigns `glue_job_created := True` only. -/
def jobUpdateSet (r : TrackerItem) : TrackerItem :=
  { r with glue_job_created := some true }

/-- DynamoDB `UpdateItem` keyed on `id`: applies the `SET` clause to the
item with the given key, or (DynamoDB upsert semantics) creates a fresh
item carrying only the key and the `SET` attributes. -/
def updateItem (store : List TrackerItem) (key : String)
    (setClause : TrackerItem → TrackerItem) : List TrackerItem :=
  if store.any (fun r => r.id = key) then
    store.map (fun r => if r.id = key then setClause r else r)
  else
    store ++ [setClause { id := key }]

/-- The per-record batch loop of `catalog-creator-s3/app.py`
`lambda_handler` (lines 244–276).  For each scanned record the handler
calls `create_data_catalog_table`, `create_crawler` and `update_ddb`
with no surrounding `try`, so a raised exception propagates and aborts
the invocation.  `provision` resolves the external Glue calls for a
record: `none` means one of them raised, `some (tbl, db)` means both
succeeded and yields the names passed to `update_ddb`.  Returns the
store after the invocation and whether the loop ran to completion. -/
def runCatalogLoop (provision : TrackerItem → Option (String × String))
    (store : List TrackerItem) :
    List TrackerItem → List TrackerItem × Bool
  | [] => (store, true)
  | r :: rest =>
    match provision r with
    | none => (store, false)
    | some (tbl, db) =>
      runCatalogLoop provision
        (updateItem store r.id (catalogUpdateSet tbl db)) rest

/-- The per-record batch loop of `s3-glue-job-creator/app.py`
`lambda_handler` (lines 279–338), likewise without per-record exception
handling: `provision r = false` means `create_glue_job`,
`create_workflow` or `create_trigger` raised for that record. -/
def runJobLoop (provision : TrackerItem → Bool)
    (store : List TrackerItem) :
    List TrackerItem → List TrackerItem × Bool
  | [] => (store, true)
  | r :: rest =>
    match provision r with
    | false => (store, false)
    | true =>
      runJobLoop provision (updateItem store r.id jobUpdateSet) rest

/-! ### s3-trigger: object-store discovery producer -/

/-- One resource tag, as returned by `get_bucket_tagging`. -/
structure Tag where
  key : String
  value : String
deriving DecidableEq, Repr

/-- The two queues `s3-trigger/app.py` can publish to. -/
inductive QueueTarget where
  | glueTracking
  | customEntity
deriving DecidableEq, Repr

/-- The tag driven message fan-out of `s3-trigger/app.py`
`lambda_handler` (lines 206–242).  `bucketTags` is the result of
`_get_bucket_tags`: `none` when the bucket has no tag set.  Without tags
the handler returns at once; otherwise it walks the tags, publishing one
custom-entity message per `glue-custom-entity=true` tag inside the loop,
and afterwards publishes a single message to the Glue job-tracking queue
iff some tag is `gdpr-scan=true`.  Returns the publish calls in order.
`customEntitySends` is the in-loop custom-entity fan-out, one message per
`glue-custom-entity=true` tag (lines 217–227). -/
def customEntitySends (tags : List Tag) : List QueueTarget :=
  tags.filterMap (fun t =>
    if t.key == "glue-custom-entity" && t.value == "true" then
      some QueueTarget.customEntity
    else none)

def s3TriggerSends (bucketTags : Option (List Tag)) : List QueueTarget :=
  match bucketTags with
  | none => []
  | some tags =>
    if tags.any (fun t => t.key == "gdpr-scan" && t.value == "true") then
      customEntitySends tags ++ [QueueTarget.glueTracking]
    else customEntitySends tags

/-- Whether some tag is the opt-in `gdpr-scan=true` marker
(`VALID_BUCKET_TAG_KEY` / `VALID_BUCKET_TAG_VALUE`). -/
def hasOptInTag (bucketTags : Option (List Tag)) : Bool :=
  match bucketTags with
  | none => false
  | some tags => tags.any (fun t => t.key == "gdpr-scan" && t.value == "true")

/-- The queue message `dynamodb-trigger/app.py` builds for a key-value
table creation event (lines 154–168): source type `"dynamodb"`, the
event's `responseElements` as attributes. -/
def ddbTriggerMessage (responseElements : SourceAttrs) : QueueMessage :=
  { data_source_type := "dynamodb", data_source_attrs := responseElements }

/-- The queue message `s3-trigger/app.py` builds for a qualifying bucket
creation event (lines 211–213): source type `"s3"`, the event's
`requestParameters` as attributes. -/
def s3TriggerMessage (requestParameters : SourceAttrs) : QueueMessage :=
  { data_source_type := "s3", data_source_attrs := requestParameters }

/-! ### s3-glue-job-creator: full invocation (configuration + batch) -/

/-- Python f-string interpolation of a variable that may be `None`:
`f"s3://{script_bucket}/..."` renders `None` as the text `"None"`. -/
def pyStr : Option String → String
  | none => "None"
  | some s => s

/-- The environment variables read by `s3-glue-job-creator/app.py`. -/
structure JobCreatorEnv where
  ddbGlueTrackerTableName : Option String := none
  piiOutputTableName : Option String := none
  glueAssetsBucket : Option String := none
  glueScriptBucket : Option String := none
  glueRoleArn : Option String := none
  awsRegion : Option String := none
deriving DecidableEq, Repr, Inhabited

/-- Failure modes of the job-creator invocation:
`MissingEnvironmentVariable` (named after the message text the handler
formats) or a Python `KeyError` on a record attribute. -/
inductive JobCreatorError where
  | missingEnvVar (name : String)
  | keyError (name : String)
deriving DecidableEq, Repr

/-- Region resolution in the loop body (lines 288–292): the nested
`CreateBucketConfiguration.LocationConstraint` attribute, falling back on
`os.environ.get("AWS_REGION", "noregion")` upon `KeyError`. -/
def s3JobRegion (attrs : SourceAttrs) (awsRegion : Option String) : String :=
  match (attrs.nested.lookup "CreateBucketConfiguration").bind
      (fun m => m.lookup "LocationConstraint") with
  | some s => s
  | none => awsRegion.getD "noregion"

/-- The arguments of one `create_glue_job` provisioning call
(`create_glue_job` in `s3-glue-job-creator/app.py`). -/
structure GlueJobCall where
  name : String
  scriptLocation : String
  sparkLogsPath : String
  tempDir : String
  bucketName : String
  dcTableName : String
  outputTable : String
  dcDbName : String
  s3Host : String
  region : String
  roleArn : String
deriving DecidableEq, Repr

/-- The per-record loop of `s3-glue-job-creator/app.py` (lines 279–338),
recording every `create_glue_job` call made.  External calls are assumed
to succeed here (failure injection is covered by `runJobLoop`). -/
def s3JobCreatorLoop (scriptBucket : Option String)
    (assetsBucket outputTable roleArn : String) (awsRegion : Option String)
    (store : List TrackerItem) :
    List TrackerItem → Except JobCreatorError (List GlueJobCall × List TrackerItem)
  | [] => .ok ([], store)
  | r :: rest =>
    match r.data_source_attrs with
    | none => .error (.keyError "data_source_attrs")
    | some attrs =>
    match attrs.fields.lookup "bucketName" with
    | none => .error (.keyError "bucketName")
    | some bucketName =>
    match r.data_catalog_table_name with
    | none => .error (.keyError "data_catalog_table_name")
    | some dcTableName =>
    match r.data_catalog_db_name with
    | none => .error (.keyError "data_catalog_db_name")
    | some dcDbName =>
    match attrs.fields.lookup "Host" with
    | none => .error (.keyError "Host")
    | some host =>
      let region := s3JobRegion attrs awsRegion
      let call : GlueJobCall :=
        { name := "s3-pii-detect-" ++ region ++ "-" ++ dcTableName
          scriptLocation := "s3://" ++ pyStr scriptBucket ++ "/s3-source-script.py"
          sparkLogsPath := "s3://" ++ assetsBucket ++ "/sparkHistoryLogs/"
          tempDir := "s3://" ++ assetsBucket ++ "/temporary/"
          bucketName := bucketName
          dcTableName := dcTableName
          outputTable := outputTable
          dcDbName := dcDbName
          s3Host := host
          region := region
          roleArn := roleArn }
      match s3JobCreatorLoop scriptBucket assetsBucket outputTable roleArn
          awsRegion (updateItem store r.id jobUpdateSet) rest with
      | .error e => .error e
      | .ok (calls, finalStore) => .ok (call :: calls, finalStore)

/-- The `lambda_handler` of `s3-glue-job-creator/app.py` (lines 235–344):
environment validation, tracker scan, then the provisioning loop.  Note
the source guard on lines 269–271 reads `GLUE_SCRIPT_BUCKET` into
`script_bucket` but re-tests `assets_bucket`, which this embedding
reproduces. -/
def s3JobCreatorRun (env : JobCreatorEnv) (store : List TrackerItem) :
    Except JobCreatorError (List GlueJobCall × List TrackerItem) :=
  match truthyStr env.ddbGlueTrackerTableName with
  | none => .error (.missingEnvVar "DDB_GLUE_TRACKER_TABLE_NAME")
  | some _ =>
    let results := scanStore store s3JobCreatorPred
    if results.isEmpty then .ok ([], store)
    else
      match truthyStr env.piiOutputTableName with
      | none => .error (.missingEnvVar "PII_OUTPUT_TABLE_NAME")
      | some outputTable =>
      match truthyStr env.glueAssetsBucket with
      | none => .error (.missingEnvVar "GLUE_ASSETS_BUCKET")
      | some assetsBucket =>
      match truthyStr env.glueAssetsBucket with
      | none => .error (.missingEnvVar "GLUE_SCRIPT_BUCKET")
      | some _ =>
      match truthyStr env.glueRoleArn with
      | none => .error (.missingEnvVar "GLUE_ROLE_ARN")
      | some roleArn =>
        s3JobCreatorLoop env.glueScriptBucket assetsBucket outputTable
          roleArn env.awsRegion store results

/-! ### glue-tracking-initial: queue consumer, full invocation -/

/-- Raw SQS message body: valid JSON carrying the discovery payload, or
text `json.loads` rejects. -/
inductive RawBody where
  | validJson (m : QueueMessage)
  | invalidJson (s : String)
deriving DecidableEq, Repr

/-- One entry of the event's `Records` array. -/
structure SqsRecord where
  receiptHandle : Option String := none
  messageId : Option String := none
  body : Option RawBody := none
deriving DecidableEq, Repr

/-- The invocation event of the queue consumer.  `eventBody` holds the
discovery payload when the event itself is the body (the
`test_event == "true"` path of `_get_message_body`, where the handler
reads `data_source_type` and `data_source_attrs` straight off the event
dict; `none` there surfaces as a Python `KeyError`). -/
structure Event where
  records : Option (List SqsRecord) := none
  test_event : Option String := none
  eventBody : Option QueueMessage := none
deriving DecidableEq, Repr

/-- Delivery attributes of the first record. -/
structure MsgAttr where
  message_id : String
  receipt_handle : String
deriving DecidableEq, Repr

/-- Failure modes inside body and attribute extraction. -/
inductive ExtractErr where
  | malformedEvent
  | keyError
deriving DecidableEq, Repr

/-- `_get_sqs_message_attributes` of `glue-tracking-initial/app.py`
(lines 120–151): `None` when the event carries no (or an empty)
`Records` array; `MalformedEvent` when the first record lacks a truthy
`receiptHandle` or `messageId`. -/
def getSqsMessageAttributes (ev : Event) : Except ExtractErr (Option MsgAttr) :=
  match ev.records with
  | none => .ok none
  | some [] => .ok none
  | some (r :: _) =>
    match truthyStr r.receiptHandle with
    | none => .error .malformedEvent
    | some rh =>
      match truthyStr r.messageId with
      | none => .error .malformedEvent
      | some mid => .ok (some { message_id := mid, receipt_handle := rh })

/-- The python `test_event.lower() == "true"` comparison, character by
character. -/
def pyLowerEqTrue (s : String) : Bool :=
  String.mk (s.data.map Char.toLower) = "true"

/-- `_get_message_body` of `glue-tracking-initial/app.py` (lines 83–117):
the event itself on the test path, otherwise the first record's JSON
body, with `MalformedEvent` on a missing `Records` array, an absent
body, or invalid JSON. -/
def getMessageBody (ev : Event) : Except ExtractErr QueueMessage :=
  if pyLowerEqTrue (ev.test_event.getD "") then
    match ev.eventBody with
    | some m => .ok m
    | none => .error .keyError
  else
    match ev.records with
    | none => .error .malformedEvent
    | some [] => .error .malformedEvent
    | some (r :: _) =>
      match r.body with
      | none => .error .malformedEvent
      | some (.invalidJson _) => .error .malformedEvent
      | some (.validJson m) => .ok m

/-- Externally visible calls the consumer makes, in program order. -/
inductive Action where
  | deleteMessage (messageId receiptHandle : String)
  | putItemCall (item : TrackerItem)
deriving DecidableEq, Repr

/-- The environment variables read by `glue-tracking-initial/app.py`. -/
structure GlueTrackingEnv where
  sqsQueueUrl : Option String := none
  glueTrackerTableName : Option String := none
deriving DecidableEq, Repr

/-- How a consumer invocation ends when it does not return normally. -/
inductive InvocationError where
  | malformedEvent
  | missingEnvVar
  | sqsDeletionFailed
  | bodyKeyError
  | insertRaised
deriving DecidableEq, Repr

/-- Steps of `lambda_handler` in `glue-tracking-initial/app.py` after the
deletion block (lines 202–237): parse the body, check the table-name
environment variable, then conditionally insert. -/
def glueTrackingAfterDelete (env : GlueTrackingEnv) (ev : Event)
    (uid : String) (fault : Option String) (store : List TrackerItem) :
    List Action × List TrackerItem × Option InvocationError :=
  match getMessageBody ev with
  | .error .malformedEvent => ([], store, some .malformedEvent)
  | .error .keyError => ([], store, some .bodyKeyError)
  | .ok body =>
    match truthyStr env.glueTrackerTableName with
    | none => ([], store, some .missingEnvVar)
    | some _ =>
      match glueTrackingInsert store body uid fault with
      | (store2, .ok) =>
          ([Action.putItemCall (glueTrackingItem uid body)], store2, none)
      | (store2, .raised) =>
          ([Action.putItemCall (glueTrackingItem uid body)], store2,
           some .insertRaised)

/-- `lambda_handler` of `glue-tracking-initial/app.py` (lines 185–237):
extract delivery attributes; when present, delete the message from the
queue (checking `SQS_QUEUE_URL` first, `deleteOk` injecting an SQS
deletion failure); only then parse the body and insert.  Returns the
external calls in program order, the resulting store, and the error the
invocation raised, if any. -/
def glueTrackingHandler (env : GlueTrackingEnv) (ev : Event) (uid : String)
    (deleteOk : Bool) (fault : Option String) (store : List TrackerItem) :
    List Action × List TrackerItem × Option InvocationError :=
  match getSqsMessageAttributes ev with
  | .error _ => ([], store, some .malformedEvent)
  | .ok (some attrs) =>
    match truthyStr env.sqsQueueUrl with
    | none => ([], store, some .missingEnvVar)
    | some _ =>
      if deleteOk then
        match glueTrackingAfterDelete env ev uid fault store with
        | (acts, store2, err) =>
            (Action.deleteMessage attrs.message_id attrs.receipt_handle :: acts,
             store2, err)
      else
        ([Action.deleteMessage attrs.message_id attrs.receipt_handle],
         store, some .sqsDeletionFailed)
  | .ok none =>
    glueTrackingAfterDelete env ev uid fault store

/-- Whether an action is an SQS `delete_message` call. -/
def Action.isDelete : Action → Bool
  | .deleteMessage _ _ => true
  | .putItemCall _ => false

/-! ### All writes this subsystem performs against the tracker table -/

/-- The operations of the subsystem that touch the Tracker Store: the two
conditional inserts, the two stage-advancement updates, and a
tag-compliance report run.  The tag reporters
(`s3-tag-report`, `rds-tag-report`, `ddb-tag-report`) scan the tracker
table read-only and `put_item` only into the separate
`TAG_REPORT_TABLE_NAME` table, so a report run leaves the tracker store
unchanged. -/
inductive TrackerOp where
  | insertS3 (uid : String) (body : QueueMessage) (fault : Option String)
  | insertRds (uid tableName dbName : String) (attrs : SourceAttrs)
      (fault : Option String)
  | catalogUpdate (key dcTableName dcDbName : String)
  | jobUpdate (key : String)
  | tagReport
deriving Repr

/-- Effect of one subsystem operation on the tracker store. -/
def applyTrackerOp (store : List TrackerItem) : TrackerOp → List TrackerItem
  | .insertS3 uid body fault => (glueTrackingInsert store body uid fault).1
  | .insertRds uid tableName dbName attrs fault =>
      (rdsTrackingInsert store uid tableName dbName attrs fault).1
  | .catalogUpdate key dcTableName dcDbName =>
      updateItem store key (catalogUpdateSet dcTableName dcDbName)
  | .jobUpdate key => updateItem store key jobUpdateSet
  | .tagReport => store

/-! ### List access helpers -/

theorem getD_cons_succ {α} (a : α) (l : List α) (i : Nat) (d : α) :
    (a :: l).getD (i + 1) d = l.getD i d := rfl

theorem getD_map_lt (f : TrackerItem → TrackerItem) :
    ∀ (l : List TrackerItem) (i : Nat), i < l.length →
      ∀ d, (l.map f).getD i d = f (l.getD i d)
  | [], i, h, _ => absurd h (by simp)
  | _ :: _, 0, _, _ => rfl
  | _ :: l, i + 1, h, d =>
      getD_map_lt f l i (Nat.lt_of_succ_lt_succ (by simpa using h)) d

theorem getD_append_lt :
    ∀ (l l2 : List TrackerItem) (i : Nat), i < l.length →
      ∀ d, (l ++ l2).getD i d = l.getD i d
  | [], _, i, h, _ => absurd h (by simp)
  | _ :: _, _, 0, _, _ => rfl
  | _ :: l, l2, i + 1, h, d =>
      getD_append_lt l l2 i (Nat.lt_of_succ_lt_succ (by simpa using h)) d

/-! ### Concrete fixtures used by witnesses and counterexamples -/

/-- Attributes of a sample discovered bucket. -/
def sampleAttrs : SourceAttrs :=
  { fields := [("bucketName", "b1"), ("Host", "s3.amazonaws.com")] }

/-- Queue message for the sample bucket discovery. -/
def sampleMsg : QueueMessage := s3TriggerMessage sampleAttrs

/-- A tracker item freshly inserted by the queue consumer. -/
def sampleDiscovered : TrackerItem := glueTrackingItem "r0" sampleMsg

/-- A tracker item after the catalog stage has run for it. -/
def sampleCatalogued : TrackerItem :=
  catalogUpdateSet "db_b1" "db" (glueTrackingItem "r1" sampleMsg)

/-! ### Claims -/

theorem beq_true_of_pred {r : TrackerItem}
    (h : s3JobCreatorPred r = true) : r.data_catalog_entry = some true := by
  unfold s3JobCreatorPred at h
  simp only [Bool.and_eq_true, beq_iff_eq] at h
  exact h.1.2

/-- C4: every record selected by the job-stage scan predicate
(`SELECT ... WHERE glue_job_created = False AND data_catalog_entry = True
AND data_source_type = 's3'` in `s3-glue-job-creator/app.py`) has
`data_catalog_entry = true`; a record with the flag false (or absent) is
never selected, so job creation is only attempted after the catalog stage
completed for that record. -/
theorem jobScan_requires_catalog (store : List TrackerItem)
    (r : TrackerItem) (h : r ∈ scanStore store s3JobCreatorPred) :
    r.data_catalog_entry = some true := by
  exact beq_true_of_pred (List.of_mem_filter h)

theorem jobScan_requires_catalog_witness :
    sampleCatalogued ∈
      scanStore [sampleDiscovered, sampleCatalogued] s3JobCreatorPred
    ∧ sampleCatalogued.data_catalog_entry = some true :=
  ⟨by decide,
   jobScan_requires_catalog [sampleDiscovered, sampleCatalogued]
     sampleCatalogued (by decide)⟩

/-- C5 counterexample: a key-value (dynamodb) table discovery is published
by `dynamodb-trigger/app.py` to the Glue tracking queue and inserted by
`glue-tracking-initial/app.py`, whose item carries
`data_catalog_entry = False` — not `True` as the claim states for
relational *and* key-value sources. -/
theorem keyValueIngestion_counterexample :
    (glueTrackingItem "u0"
        (ddbTriggerMessage { fields := [("tableName", "orders")] })
      ).data_source_type = some "dynamodb"
    ∧ (glueTrackingItem "u0"
        (ddbTriggerMessage { fields := [("tableName", "orders")] })
      ).data_catalog_entry = some false
    ∧ ¬ (glueTrackingItem "u0"
        (ddbTriggerMessage { fields := [("tableName", "orders")] })
      ).data_catalog_entry = some true := by
  decide

/-- C5 amended: only relational-source ingestion
(`rds-glue-tracking-initial/app.py`, observing a catalog-side
`CreateTable` event) inserts with `catalog_entry_created` pre-set true;
key-value (dynamodb) and object-store (s3) discoveries both flow through
the tracking queue into `glue-tracking-initial/app.py`, which inserts
with both stage flags false. -/
theorem ingestion_flag_presets (uid tableName dbName : String)
    (attrs re rp : SourceAttrs) :
    (rdsTrackingItem uid tableName dbName attrs).data_catalog_entry = some true
    ∧ (rdsTrackingItem uid tableName dbName attrs).glue_job_created = some false
    ∧ (ddbTriggerMessage re).data_source_type = "dynamodb"
    ∧ (glueTrackingItem uid (ddbTriggerMessage re)).data_catalog_entry
        = some false
    ∧ (glueTrackingItem uid (ddbTriggerMessage re)).glue_job_created
        = some false
    ∧ (glueTrackingItem uid (s3TriggerMessage rp)).data_catalog_entry
        = some false
    ∧ (glueTrackingItem uid (s3TriggerMessage rp)).glue_job_created
        = some false :=
  ⟨rfl, rfl, rfl, rfl, rfl, rfl, rfl⟩

theorem count_customEntity_zero (tags : List Tag) :
    (customEntitySends tags).count QueueTarget.glueTracking = 0 := by
  rw [List.count_eq_zero]
  intro hmem
  unfold customEntitySends at hmem
  rw [List.mem_filterMap] at hmem
  obtain ⟨t, _, ht⟩ := hmem
  by_cases hb : (t.key == "glue-custom-entity" && t.value == "true") = true
  · rw [if_pos hb] at ht
    exact QueueTarget.noConfusion (Option.some.inj ht)
  · rw [if_neg hb] at ht
    exact Option.noConfusion ht

/-- C7: `s3-trigger/app.py` publishes exactly one message to the Glue
job-tracking queue iff some bucket tag is the opt-in `gdpr-scan=true`
marker; without it (and in particular when the bucket has no tags at
all) no job-tracking message is published — so no TrackerRecord arises
from this discovery, the tracker insert for object-store sources being
driven solely by job-tracking queue messages. -/
theorem optInTag_gates_tracking_message (bucketTags : Option (List Tag)) :
    (s3TriggerSends bucketTags).count QueueTarget.glueTracking
      = (if hasOptInTag bucketTags then 1 else 0) := by
  cases bucketTags with
  | none => rfl
  | some tags =>
    unfold s3TriggerSends hasOptInTag
    cases h : tags.any (fun t => t.key == "gdpr-scan" && t.value == "true") <;>
      simp [h, List.count_append, count_customEntity_zero]

/-- C1 counterexample: `glue-tracking-initial/app.py` generates a fresh
random `uuid.uuid4()` as the record id on every invocation (line 211), so
the same discovery message delivered twice is inserted under two distinct
generated ids: the `attribute_not_exists(id)` condition never fires, the
second insert returns success, and the store ends with two records. -/
theorem idempotentInsert_counterexample :
    (glueTrackingInsert
        (glueTrackingInsert [] sampleMsg "u1" none).1 sampleMsg "u2" none).2
      = HandlerResult.ok
    ∧ ((glueTrackingInsert
        (glueTrackingInsert [] sampleMsg "u1" none).1 sampleMsg "u2"
          none).1).length = 2 := by
  decide

/-- C1 amended: the conditional insert deduplicates only on the generated
`id`.  When the second delivery happens to reuse the same generated id,
the store-level condition fires: the put reports
`ConditionalCheckFailedException` (DuplicateRecord), the handler swallows
it and the store is unchanged — exactly one record.  With distinct
generated ids (the actual behavior, the id being a fresh uuid4 per
invocation) the second delivery adds a second record. -/
theorem idempotentInsert_amended (store : List TrackerItem)
    (b : QueueMessage) (u u2 : String)
    (h1 : store.any (fun r => r.id = u) = false)
    (h2 : store.any (fun r => r.id = u2) = false)
    (hne : u ≠ u2) :
    (glueTrackingInsert store b u none).1 = store ++ [glueTrackingItem u b]
    ∧ (trackerPutItem (store ++ [glueTrackingItem u b])
        (glueTrackingItem u b) none).2 = some "ConditionalCheckFailedException"
    ∧ glueTrackingInsert (store ++ [glueTrackingItem u b]) b u none
        = (store ++ [glueTrackingItem u b], .ok)
    ∧ ((glueTrackingInsert (store ++ [glueTrackingItem u b]) b u2
        none).1).length = store.length + 2 := by
  refine ⟨?_, ?_, ?_, ?_⟩
  · simp [glueTrackingInsert, trackerPutItem, glueTrackingItem, h1]
  · simp [trackerPutItem, glueTrackingItem]
  · simp [glueTrackingInsert, trackerPutItem, glueTrackingItem]
  · simp [glueTrackingInsert, trackerPutItem, glueTrackingItem, h2, hne]


theorem idempotentInsert_amended_witness :
    ([] : List TrackerItem).any (fun r => r.id = "u1") = false
    ∧ ([] : List TrackerItem).any (fun r => r.id = "u2") = false
    ∧ "u1" ≠ "u2"
    ∧ ((glueTrackingInsert [] sampleMsg "u1" none).1
        = [] ++ [glueTrackingItem "u1" sampleMsg]
      ∧ (trackerPutItem ([] ++ [glueTrackingItem "u1" sampleMsg])
          (glueTrackingItem "u1" sampleMsg) none).2
          = some "ConditionalCheckFailedException"
      ∧ glueTrackingInsert ([] ++ [glueTrackingItem "u1" sampleMsg])
          sampleMsg "u1" none
          = ([] ++ [glueTrackingItem "u1" sampleMsg], .ok)
      ∧ ((glueTrackingInsert ([] ++ [glueTrackingItem "u1" sampleMsg])
          sampleMsg "u2" none).1).length = ([] : List TrackerItem).length + 2) :=
  ⟨by decide, by decide, by decide,
   idempotentInsert_amended [] sampleMsg "u1" "u2"
     (by decide) (by decide) (by decide)⟩

/-- C6: in both insert handlers (`glue-tracking-initial/app.py` lines
221–235, `rds-glue-tracking-initial/app.py` lines 151–165) a
`ConditionalCheckFailedException` — the DuplicateRecord case, raised when
a record with the generated id already exists — is logged and swallowed,
returning normally with the store unchanged, while any other
`ClientError` code re-raises and aborts the invocation. -/
theorem duplicate_swallowed_others_reraised (store : List TrackerItem)
    (b : QueueMessage) (u tableName dbName : String) (attrs : SourceAttrs) :
    (store.any (fun r => r.id = u) = true →
      glueTrackingInsert store b u none = (store, .ok)
      ∧ rdsTrackingInsert store u tableName dbName attrs none = (store, .ok))
    ∧ glueTrackingInsert store b u (some "ConditionalCheckFailedException")
        = (store, .ok)
    ∧ rdsTrackingInsert store u tableName dbName attrs
        (some "ConditionalCheckFailedException") = (store, .ok)
    ∧ (∀ code, code ≠ "ConditionalCheckFailedException" →
      glueTrackingInsert store b u (some code) = (store, .raised)
      ∧ rdsTrackingInsert store u tableName dbName attrs (some code)
        = (store, .raised)) := by
  refine ⟨fun h => ⟨?_, ?_⟩, ?_, ?_, fun code hc => ⟨?_, ?_⟩⟩
  · simp [glueTrackingInsert, trackerPutItem, glueTrackingItem, h]
  · simp [rdsTrackingInsert, trackerPutItem, rdsTrackingItem, h]
  · simp [glueTrackingInsert, trackerPutItem]
  · simp [rdsTrackingInsert, trackerPutItem]
  · simp [glueTrackingInsert, trackerPutItem, hc]
  · simp [rdsTrackingInsert, trackerPutItem, hc]

theorem duplicate_swallowed_others_reraised_witness :
    [sampleDiscovered].any (fun r => r.id = "r0") = true
    ∧ glueTrackingInsert [sampleDiscovered] sampleMsg "r0" none
        = ([sampleDiscovered], .ok)
    ∧ "ThrottlingException" ≠ "ConditionalCheckFailedException"
    ∧ glueTrackingInsert [] sampleMsg "u9" (some "ThrottlingException")
        = ([], .raised) :=
  ⟨by decide,
   ((duplicate_swallowed_others_reraised [sampleDiscovered] sampleMsg "r0"
      "t" "d" sampleAttrs).1 (by decide)).1,
   by decide,
   ((duplicate_swallowed_others_reraised [] sampleMsg "u9"
      "t" "d" sampleAttrs).2.2.2 "ThrottlingException" (by decide)).1⟩

/-- A second discovered bucket, for batch counterexamples. -/
def sampleDiscoveredB : TrackerItem :=
  glueTrackingItem "r9"
    (s3TriggerMessage { fields := [("bucketName", "b9"), ("Host", "h9")] })

/-- Provisioning oracle that fails on the record with id `"r0"` and
succeeds on every other record. -/
def cexProvision : TrackerItem → Option (String × String) :=
  fun r => if r.id = "r0" then none else some ("db_b9", "db")

/-- C2 counterexample: in `catalog-creator-s3/app.py` the batch loop has
no per-record exception handling, so when provisioning the first matched
record raises, the invocation aborts: the second matched record — whose
own provisioning would have succeeded — is left un-updated in that
invocation, its `data_catalog_entry` still false. -/
theorem partialFailure_counterexample :
    scanStore [sampleDiscovered, sampleDiscoveredB] catalogCreatorPred
      = [sampleDiscovered, sampleDiscoveredB]
    ∧ cexProvision sampleDiscoveredB = some ("db_b9", "db")
    ∧ runCatalogLoop cexProvision [sampleDiscovered, sampleDiscoveredB]
        [sampleDiscovered, sampleDiscoveredB]
      = ([sampleDiscovered, sampleDiscoveredB], false)
    ∧ sampleDiscoveredB.data_catalog_entry = some false := by
  decide

theorem catalogLoop_aborts (provision : TrackerItem → Option (String × String))
    (pre : List TrackerItem) :
    ∀ (store : List TrackerItem) (k : TrackerItem) (post : List TrackerItem),
      (∀ x ∈ pre, (provision x).isSome) → provision k = none →
      runCatalogLoop provision store (pre ++ k :: post)
        = ((runCatalogLoop provision store pre).1, false) := by
  induction pre with
  | nil =>
    intro store k post _ hk
    simp [runCatalogLoop, hk]
  | cons a as ih =>
    intro store k post hpre hk
    obtain ⟨td, htd⟩ := Option.isSome_iff_exists.mp (hpre a (by simp))
    obtain ⟨tbl, db⟩ := td
    simp only [List.cons_append, runCatalogLoop, htd]
    exact ih _ k post (fun x hx => hpre x (by simp [hx])) hk

theorem jobLoop_aborts (provision : TrackerItem → Bool)
    (pre : List TrackerItem) :
    ∀ (store : List TrackerItem) (k : TrackerItem) (post : List TrackerItem),
      (∀ x ∈ pre, provision x = true) → provision k = false →
      runJobLoop provision store (pre ++ k :: post)
        = ((runJobLoop provision store pre).1, false) := by
  induction pre with
  | nil =>
    intro store k post _ hk
    simp [runJobLoop, hk]
  | cons a as ih =>
    intro store k post hpre hk
    have ha := hpre a (by simp)
    simp only [List.cons_append, runJobLoop, ha]
    exact ih _ k post (fun x hx => hpre x (by simp [hx])) hk

/-- C2 amended: both stage-advancement batch loops
(`catalog-creator-s3/app.py` and `s3-glue-job-creator/app.py`) abort at
the first record whose processing raises: records scanned before the
failing one are provisioned and updated, the failing record and every
record after it are left untouched in that invocation (they stay
eligible for the next scheduled scan). -/
theorem stageLoop_abort_on_failure
    (provC : TrackerItem → Option (String × String))
    (provJ : TrackerItem → Bool)
    (storeC storeJ : List TrackerItem)
    (preC preJ postC postJ : List TrackerItem) (kC kJ : TrackerItem)
    (hpreC : ∀ x ∈ preC, (provC x).isSome) (hkC : provC kC = none)
    (hpreJ : ∀ x ∈ preJ, provJ x = true) (hkJ : provJ kJ = false) :
    runCatalogLoop provC storeC (preC ++ kC :: postC)
      = ((runCatalogLoop provC storeC preC).1, false)
    ∧ runJobLoop provJ storeJ (preJ ++ kJ :: postJ)
      = ((runJobLoop provJ storeJ preJ).1, false) :=
  ⟨catalogLoop_aborts provC preC storeC kC postC hpreC hkC,
   jobLoop_aborts provJ preJ storeJ kJ postJ hpreJ hkJ⟩

theorem stageLoop_abort_on_failure_witness :
    (∀ x ∈ [sampleDiscoveredB], (cexProvision x).isSome)
    ∧ cexProvision sampleDiscovered = none
    ∧ (∀ x ∈ ([] : List TrackerItem), (fun r => r.id == "r9") x = true)
    ∧ (fun r => r.id == "r9") sampleDiscovered = false
    ∧ (runCatalogLoop cexProvision [sampleDiscovered, sampleDiscoveredB]
        ([sampleDiscoveredB] ++ sampleDiscovered :: [])
      = ((runCatalogLoop cexProvision [sampleDiscovered, sampleDiscoveredB]
          [sampleDiscoveredB]).1, false)
      ∧ runJobLoop (fun r => r.id == "r9")
          [sampleDiscovered, sampleDiscoveredB]
          ([] ++ sampleDiscovered :: [sampleDiscoveredB])
        = ((runJobLoop (fun r => r.id == "r9")
            [sampleDiscovered, sampleDiscoveredB] []).1, false)) :=
  ⟨by decide, by decide, by decide, by decide,
   stageLoop_abort_on_failure cexProvision (fun r => r.id == "r9")
     [sampleDiscovered, sampleDiscoveredB] [sampleDiscovered, sampleDiscoveredB]
     [sampleDiscoveredB] [] [] [sampleDiscoveredB]
     sampleDiscovered sampleDiscovered
     (by decide) (by decide) (by decide) (by decide)⟩

theorem glueTrackingInsert_fst (store : List TrackerItem) (b : QueueMessage)
    (uid : String) (fault : Option String) :
    (glueTrackingInsert store b uid fault).1 = store
    ∨ (glueTrackingInsert store b uid fault).1
        = store ++ [glueTrackingItem uid b] := by
  unfold glueTrackingInsert trackerPutItem
  cases fault with
  | some code =>
    by_cases h : code = "ConditionalCheckFailedException" <;> simp [h]
  | none =>
    by_cases h :
        store.any (fun r => r.id = (glueTrackingItem uid b).id) = true <;>
      simp [h]

theorem rdsTrackingInsert_fst (store : List TrackerItem)
    (uid tableName dbName : String) (attrs : SourceAttrs)
    (fault : Option String) :
    (rdsTrackingInsert store uid tableName dbName attrs fault).1 = store
    ∨ (rdsTrackingInsert store uid tableName dbName attrs fault).1
        = store ++ [rdsTrackingItem uid tableName dbName attrs] := by
  unfold rdsTrackingInsert trackerPutItem
  cases fault with
  | some code =>
    by_cases h : code = "ConditionalCheckFailedException" <;> simp [h]
  | none =>
    by_cases h :
        store.any (fun r =>
          r.id = (rdsTrackingItem uid tableName dbName attrs).id) = true <;>
      simp [h]

theorem updateItem_length_ge (store : List TrackerItem) (key : String)
    (f : TrackerItem → TrackerItem) :
    store.length ≤ (updateItem store key f).length := by
  unfold updateItem
  split <;> simp

theorem updateItem_getD (store : List TrackerItem) (key : String)
    (f : TrackerItem → TrackerItem) (i : Nat) (h : i < store.length) :
    (updateItem store key f).getD i default = store.getD i default
    ∨ (updateItem store key f).getD i default
        = f (store.getD i default) := by
  unfold updateItem
  by_cases hc : store.any (fun r => r.id = key) = true
  · rw [if_pos hc, getD_map_lt _ store i h]
    by_cases hid : (store.getD i default).id = key
    · right
      rw [if_pos hid]
    · left
      rw [if_neg hid]
  · rw [if_neg hc]
    left
    exact getD_append_lt store _ i h default

/-- C3: every tracker-store write of this subsystem — the two conditional
inserts, the catalog-stage update, the job-stage update, and a
tag-compliance report run — leaves every pre-existing record either
unchanged or with a stage flag set to true: neither
`data_catalog_entry` nor `glue_job_created` of an existing record is
ever assigned false, so a true flag stays true. -/
theorem trackerFlags_monotonic (op : TrackerOp) (store : List TrackerItem)
    (i : Nat) (h : i < store.length) :
    store.length ≤ (applyTrackerOp store op).length
    ∧ ((applyTrackerOp store op).getD i default).id
        = (store.getD i default).id
    ∧ (((applyTrackerOp store op).getD i default).data_catalog_entry
          = (store.getD i default).data_catalog_entry
        ∨ ((applyTrackerOp store op).getD i default).data_catalog_entry
          = some true)
    ∧ (((applyTrackerOp store op).getD i default).glue_job_created
          = (store.getD i default).glue_job_created
        ∨ ((applyTrackerOp store op).getD i default).glue_job_created
          = some true)
    ∧ ((store.getD i default).data_catalog_entry = some true →
        ((applyTrackerOp store op).getD i default).data_catalog_entry
          = some true)
    ∧ ((store.getD i default).glue_job_created = some true →
        ((applyTrackerOp store op).getD i default).glue_job_created
          = some true) := by
  cases op with
  | insertS3 uid body fault =>
    simp only [applyTrackerOp]
    rcases glueTrackingInsert_fst store body uid fault with he | he <;> rw [he]
    · exact ⟨Nat.le_refl _, rfl, Or.inl rfl, Or.inl rfl, id, id⟩
    · rw [getD_append_lt store _ i h]
      exact ⟨by simp, rfl, Or.inl rfl, Or.inl rfl, id, id⟩
  | insertRds uid tableName dbName attrs fault =>
    simp only [applyTrackerOp]
    rcases rdsTrackingInsert_fst store uid tableName dbName attrs fault
      with he | he <;> rw [he]
    · exact ⟨Nat.le_refl _, rfl, Or.inl rfl, Or.inl rfl, id, id⟩
    · rw [getD_append_lt store _ i h]
      exact ⟨by simp, rfl, Or.inl rfl, Or.inl rfl, id, id⟩
  | catalogUpdate key dcTableName dcDbName =>
    simp only [applyTrackerOp]
    refine ⟨updateItem_length_ge store key _, ?_, ?_, ?_, ?_, ?_⟩ <;>
      rcases updateItem_getD store key (catalogUpdateSet dcTableName dcDbName)
        i h with he | he <;> rw [he] <;> simp [catalogUpdateSet]
  | jobUpdate key =>
    simp only [applyTrackerOp]
    refine ⟨updateItem_length_ge store key _, ?_, ?_, ?_, ?_, ?_⟩ <;>
      rcases updateItem_getD store key jobUpdateSet i h with he | he <;>
        rw [he] <;> simp [jobUpdateSet]
  | tagReport =>
    simp [applyTrackerOp]

theorem trackerFlags_monotonic_witness :
    0 < ([sampleCatalogued] : List TrackerItem).length
    ∧ ([sampleCatalogued].length
        ≤ (applyTrackerOp [sampleCatalogued] (.jobUpdate "r1")).length
      ∧ ((applyTrackerOp [sampleCatalogued] (.jobUpdate "r1")).getD 0
          default).id = ([sampleCatalogued].getD 0 default).id
      ∧ (((applyTrackerOp [sampleCatalogued] (.jobUpdate "r1")).getD 0
            default).data_catalog_entry
            = ([sampleCatalogued].getD 0 default).data_catalog_entry
          ∨ ((applyTrackerOp [sampleCatalogued] (.jobUpdate "r1")).getD 0
            default).data_catalog_entry = some true)
      ∧ (((applyTrackerOp [sampleCatalogued] (.jobUpdate "r1")).getD 0
            default).glue_job_created
            = ([sampleCatalogued].getD 0 default).glue_job_created
          ∨ ((applyTrackerOp [sampleCatalogued] (.jobUpdate "r1")).getD 0
            default).glue_job_created = some true)
      ∧ (([sampleCatalogued].getD 0 default).data_catalog_entry = some true →
          ((applyTrackerOp [sampleCatalogued] (.jobUpdate "r1")).getD 0
            default).data_catalog_entry = some true)
      ∧ (([sampleCatalogued].getD 0 default).glue_job_created = some true →
          ((applyTrackerOp [sampleCatalogued] (.jobUpdate "r1")).getD 0
            default).glue_job_created = some true)) :=
  ⟨by decide,
   trackerFlags_monotonic (.jobUpdate "r1") [sampleCatalogued] 0 (by decide)⟩

/-- C8: each stage-advancement update mutates only its own stage fields.
The catalog-stage `SET` clause assigns exactly `data_catalog_entry`,
`data_catalog_table_name` and `data_catalog_db_name`; the job-stage
`SET` clause assigns exactly `glue_job_created`; both leave `id`,
`data_source_type`, `data_source_attrs` and the other stage flag of the
record untouched (so `source_attributes` is write-once), and an
`UpdateItem` keyed on one id leaves every record with a different id
unchanged in the store. -/
theorem stageUpdate_frame (dcTableName dcDbName key : String)
    (r : TrackerItem) (store : List TrackerItem)
    (f : TrackerItem → TrackerItem)
    (hmem : r ∈ store) (hne : r.id ≠ key) :
    (catalogUpdateSet dcTableName dcDbName r).id = r.id
    ∧ (catalogUpdateSet dcTableName dcDbName r).data_source_type
        = r.data_source_type
    ∧ (catalogUpdateSet dcTableName dcDbName r).glue_job_created
        = r.glue_job_created
    ∧ (catalogUpdateSet dcTableName dcDbName r).data_source_attrs
        = r.data_source_attrs
    ∧ (catalogUpdateSet dcTableName dcDbName r).data_catalog_entry
        = some true
    ∧ (catalogUpdateSet dcTableName dcDbName r).data_catalog_table_name
        = some dcTableName
    ∧ (catalogUpdateSet dcTableName dcDbName r).data_catalog_db_name
        = some dcDbName
    ∧ (jobUpdateSet r).id = r.id
    ∧ (jobUpdateSet r).data_source_type = r.data_source_type
    ∧ (jobUpdateSet r).data_catalog_entry = r.data_catalog_entry
    ∧ (jobUpdateSet r).data_catalog_table_name = r.data_catalog_table_name
    ∧ (jobUpdateSet r).data_catalog_db_name = r.data_catalog_db_name
    ∧ (jobUpdateSet r).data_source_attrs = r.data_source_attrs
    ∧ (jobUpdateSet r).glue_job_created = some true
    ∧ r ∈ updateItem store key f := by
  refine ⟨rfl, rfl, rfl, rfl, rfl, rfl, rfl, rfl, rfl, rfl, rfl, rfl, rfl,
    rfl, ?_⟩
  unfold updateItem
  by_cases hc : store.any (fun x => x.id = key) = true
  · rw [if_pos hc]
    have hfix : (fun x => if x.id = key then f x else x) r = r := if_neg hne
    exact hfix ▸ List.mem_map_of_mem _ hmem
  · rw [if_neg hc]
    exact List.mem_append_left _ hmem

theorem stageUpdate_frame_witness :
    sampleDiscovered ∈ ([sampleDiscovered, sampleCatalogued] : List TrackerItem)
    ∧ sampleDiscovered.id ≠ "r1"
    ∧ ((catalogUpdateSet "db_b1" "db" sampleDiscovered).id
          = sampleDiscovered.id
      ∧ (catalogUpdateSet "db_b1" "db" sampleDiscovered).data_source_type
          = sampleDiscovered.data_source_type
      ∧ (catalogUpdateSet "db_b1" "db" sampleDiscovered).glue_job_created
          = sampleDiscovered.glue_job_created
      ∧ (catalogUpdateSet "db_b1" "db" sampleDiscovered).data_source_attrs
          = sampleDiscovered.data_source_attrs
      ∧ (catalogUpdateSet "db_b1" "db" sampleDiscovered).data_catalog_entry
          = some true
      ∧ (catalogUpdateSet "db_b1" "db"
            sampleDiscovered).data_catalog_table_name = some "db_b1"
      ∧ (catalogUpdateSet "db_b1" "db" sampleDiscovered).data_catalog_db_name
          = some "db"
      ∧ (jobUpdateSet sampleDiscovered).id = sampleDiscovered.id
      ∧ (jobUpdateSet sampleDiscovered).data_source_type
          = sampleDiscovered.data_source_type
      ∧ (jobUpdateSet sampleDiscovered).data_catalog_entry
          = sampleDiscovered.data_catalog_entry
      ∧ (jobUpdateSet sampleDiscovered).data_catalog_table_name
          = sampleDiscovered.data_catalog_table_name
      ∧ (jobUpdateSet sampleDiscovered).data_catalog_db_name
          = sampleDiscovered.data_catalog_db_name
      ∧ (jobUpdateSet sampleDiscovered).data_source_attrs
          = sampleDiscovered.data_source_attrs
      ∧ (jobUpdateSet sampleDiscovered).glue_job_created = some true
      ∧ sampleDiscovered ∈
          updateItem [sampleDiscovered, sampleCatalogued] "r1" jobUpdateSet) :=
  ⟨by decide, by decide,
   stageUpdate_frame "db_b1" "db" "r1" sampleDiscovered
     [sampleDiscovered, sampleCatalogued] jobUpdateSet
     (by decide) (by decide)⟩

/-- Environment for the job creator with every required value present
except `GLUE_SCRIPT_BUCKET`. -/
def bugEnv : JobCreatorEnv :=
  { ddbGlueTrackerTableName := some "glue-tracker"
    piiOutputTableName := some "pii-output"
    glueAssetsBucket := some "glue-assets"
    glueScriptBucket := none
    glueRoleArn := some "glue-role" }

/-- A record the job-stage scan matches. -/
def bugRecord : TrackerItem :=
  catalogUpdateSet "db_b1" "db" (glueTrackingItem "r1" sampleMsg)

/-- The `create_glue_job` call the handler makes for `bugRecord` under
`bugEnv`: its script location interpolates the unset bucket as the text
`None`. -/
def bugExpectedCall : GlueJobCall :=
  { name := "s3-pii-detect-noregion-db_b1"
    scriptLocation := "s3://None/s3-source-script.py"
    sparkLogsPath := "s3://glue-assets/sparkHistoryLogs/"
    tempDir := "s3://glue-assets/temporary/"
    bucketName := "b1"
    dcTableName := "db_b1"
    outputTable := "pii-output"
    dcDbName := "db"
    s3Host := "s3.amazonaws.com"
    region := "noregion"
    roleArn := "glue-role" }

/-- C9 (code bug): with `GLUE_SCRIPT_BUCKET` unset but every other value
present, `s3-glue-job-creator/app.py` does not fail — the guard on lines
269–271 re-tests `assets_bucket` instead of the just-read
`script_bucket` — and the invocation proceeds to provision a Glue job
whose script location is the interpolated text `s3://None/...`, an
external side effect that depends on the missing value. -/
theorem scriptBucketMissing_proceeds :
    s3JobCreatorRun bugEnv [bugRecord]
      = .ok ([bugExpectedCall], [jobUpdateSet bugRecord])
    ∧ bugExpectedCall.scriptLocation = "s3://None/s3-source-script.py" :=
  ⟨rfl, rfl⟩

theorem afterDelete_no_delete (env : GlueTrackingEnv) (ev : Event)
    (uid : String) (fault : Option String) (store : List TrackerItem) :
    (glueTrackingAfterDelete env ev uid fault store).1.filter Action.isDelete
      = [] := by
  unfold glueTrackingAfterDelete
  repeat' split
  all_goals rfl

/-- C10: in the queue consumers, when the first record of the event
carries both a (truthy) `receiptHandle` and `messageId` and the queue URL
is configured, the very first external call of the invocation is the SQS
`delete_message` — before the body is parsed or the tracker insert is
attempted; in particular a message whose body is malformed is still
deleted (the invocation then raises `MalformedEvent`, and the deleted
message is never redelivered).  An event without those delivery
attributes performs no deletion at all. -/
theorem queueDelivery_delete_first (env : GlueTrackingEnv) (ev : Event)
    (uid : String) (deleteOk : Bool) (fault : Option String)
    (store : List TrackerItem) (attrs : MsgAttr) (q : String) :
    (getSqsMessageAttributes ev = .ok (some attrs) →
      truthyStr env.sqsQueueUrl = some q →
      ((glueTrackingHandler env ev uid deleteOk fault store).1.head?
          = some (.deleteMessage attrs.message_id attrs.receipt_handle))
      ∧ (deleteOk = true → getMessageBody ev = .error .malformedEvent →
          glueTrackingHandler env ev uid deleteOk fault store
            = ([.deleteMessage attrs.message_id attrs.receipt_handle],
               store, some .malformedEvent)))
    ∧ (getSqsMessageAttributes ev = .ok none →
        (glueTrackingHandler env ev uid deleteOk fault store).1.filter
          Action.isDelete = []) := by
  constructor
  · intro ha hq
    constructor
    · unfold glueTrackingHandler
      rw [ha, hq]
      cases deleteOk <;> simp
    · intro hd hb
      subst hd
      unfold glueTrackingHandler glueTrackingAfterDelete
      rw [ha, hq, hb]
      rfl
  · intro ha
    unfold glueTrackingHandler
    rw [ha]
    exact afterDelete_no_delete env ev uid fault store

/-- A queue-delivered event whose body is not valid JSON. -/
def malformedEv : Event :=
  { records := some [{ receiptHandle := some "rh0", messageId := some "mid0",
                       body := some (.invalidJson "not json") }] }

/-- Environment of the queue consumer with both variables set. -/
def trackingEnv : GlueTrackingEnv :=
  { sqsQueueUrl := some "queue-url", glueTrackerTableName := some "tracker" }

theorem queueDelivery_delete_first_witness :
    getSqsMessageAttributes malformedEv
      = .ok (some { message_id := "mid0", receipt_handle := "rh0" })
    ∧ truthyStr trackingEnv.sqsQueueUrl = some "queue-url"
    ∧ getMessageBody malformedEv = .error .malformedEvent
    ∧ (glueTrackingHandler trackingEnv malformedEv "u0" true none []).1.head?
        = some (.deleteMessage "mid0" "rh0")
    ∧ glueTrackingHandler trackingEnv malformedEv "u0" true none []
        = ([.deleteMessage "mid0" "rh0"], [], some .malformedEvent) := by
  have h := (queueDelivery_delete_first trackingEnv malformedEv "u0" true
      none [] { message_id := "mid0", receipt_handle := "rh0" }
      "queue-url").1 rfl rfl
  exact ⟨rfl, rfl, rfl, h.1, h.2 rfl rfl⟩

end DatastoreDiscovery
